import Mathlib

/-!
# Verification of the fixed-point peak finder (embedded-signal-peaks.c)

A shallow embedding of the algorithmic core of `embedded-signal-peaks.c`:
Q16.16 fixed-point conversion, gradient-based candidate detection,
MATLAB-style topological prominence, and prominent-peak selection.

Machine integers are modelled as `Int` with explicit two's-complement
wrap-around (`wrap32`) at every operation where a 32-bit signed overflow can
occur.  C's arithmetic right shift of a non-negative-divisor power of two is
`Int./` (`Int.ediv`), which is floor division for positive divisors.

Buffers are modelled as Lean lists; a nullable C pointer argument is an
`Option`, and a nullable output pointer is a `Bool` flag (`true` = NULL)
together with the list of values written through it during the call.
Both callers of the internal helpers pass a buffer together with its exact
element count, so the embedding identifies the C `length` parameter of the
helpers with the length of the list.
-/

/-- Two's-complement wrap-around of an arbitrary integer into the `int32_t`
range `[-2^31, 2^31)`.  This is the conventional concrete semantics of C
signed `int32_t` overflow (what `-fwrapv` guarantees and two's-complement
hardware produces). -/
def wrap32 (x : Int) : Int := (x + 2147483648) % 4294967296 - 2147483648

/-- C `x >> 1` on `int32_t`: arithmetic shift right by one, i.e. floor
division by 2 (the divisor is positive, so `Int./` is floor division). -/
def asr1 (x : Int) : Int := x / 2

/-- `to_q16`: convert an `int16_t` sample to Q16.16 (`value << 16`).
For arguments in the `int16_t` range the shift cannot overflow `int32_t`,
so no wrap is needed. -/
def to_q16 (value : Int) : Int := value * 65536

/-- `from_q16`: convert Q16.16 back to `int16_t` with rounding.
The C code computes `(value_q16 + Q16_HALF) >> Q16_SHIFT` in `int32_t`
(the addition wraps on overflow), then clamps to the `int16_t` range. -/
def from_q16 (value_q16 : Int) : Int :=
  let rounded := wrap32 (value_q16 + 32768) / 65536
  if 32767 < rounded then 32767
  else if rounded < -32768 then -32768
  else rounded

/-- Return codes of the C API (`PeakResultFP`). -/
inductive PeakResultFP where
  | PEAK_FP_OK
  | PEAK_FP_NO_PEAK_FOUND
  | PEAK_FP_INVALID_INPUT
  | PEAK_FP_BUFFER_TOO_SMALL
  deriving DecidableEq

open PeakResultFP

/-- Configuration struct (`PeakConfigFP`), all fields Q16.16 `int32_t`. -/
structure PeakConfigFP where
  prominence_threshold_q16 : Int
  gradient_threshold_q16 : Int
  noise_floor_q16 : Int
  deriving DecidableEq

/-- `default_config_fp`: thresholds 1.0, 0.1 and 10.0 in Q16.16.
`(int32_t)(1.0f * 65536)` = 65536, `(int32_t)(0.1f * 65536)` = 6553
(the float product is exactly 6553.60205078125, truncated towards zero),
`(int32_t)(10.0f * 65536)` = 655360. -/
def default_config_fp : PeakConfigFP :=
  { prominence_threshold_q16 := 65536
    gradient_threshold_q16 := 6553
    noise_floor_q16 := 655360 }

/-- `MAX_SIGNAL_LENGTH`. -/
def MAX_SIGNAL_LENGTH : Int := 512

/-- `MAX_PEAKS`. -/
def MAX_PEAKS : Nat := 32

/-- `compute_gradient_at`: forward difference at index 0, backward difference
at the last index, otherwise the central difference shifted right by one.
The `int32_t` subtractions wrap (Q16.16 values of `int16_t` samples can
differ by up to `65535 * 2^16`, which exceeds `INT32_MAX`). -/
def compute_gradient_at (signal_q16 : List Int) (index : Nat) : Int :=
  if index = 0 then
    wrap32 (signal_q16.getD 1 0 - signal_q16.getD 0 0)
  else if index = signal_q16.length - 1 then
    wrap32 (signal_q16.getD (signal_q16.length - 1) 0 -
      signal_q16.getD (signal_q16.length - 2) 0)
  else
    asr1 (wrap32 (signal_q16.getD (index + 1) 0 - signal_q16.getD (index - 1) 0))

/-- The scan loop of `find_peak_candidates` over the remaining indices,
carrying the previous index's gradient (`grad_prev`) and the remaining
capacity (`room` = `max_peaks - count`).  When a qualifying index is found
with the capacity exhausted the C loop `break`s, which yields `[]` here;
`grad_mag` is the C conditional negation, whose `int32_t` result wraps when
`grad_prev = INT32_MIN`. -/
def candAux (signal_q16 : List Int) (config : PeakConfigFP) :
    List Nat → Int → Nat → List Nat
  | [], _, _ => []
  | i :: rest, grad_prev, room =>
    let grad_curr := compute_gradient_at signal_q16 i
    let is_zero_crossing : Bool :=
      decide (0 < grad_prev) && decide (grad_curr ≤ 0)
    let is_local_max : Bool :=
      decide (signal_q16.getD (i - 1) 0 < signal_q16.getD i 0) &&
      decide (signal_q16.getD (i + 1) 0 < signal_q16.getD i 0)
    let above_noise : Bool :=
      decide (config.noise_floor_q16 < signal_q16.getD i 0)
    let grad_mag := if 0 < grad_prev then grad_prev else wrap32 (-grad_prev)
    let strong_gradient : Bool :=
      decide (config.gradient_threshold_q16 ≤ grad_mag)
    if (is_zero_crossing || is_local_max) && above_noise && strong_gradient then
      match room with
      | 0 => []
      | r + 1 => i :: candAux signal_q16 config rest grad_curr r
    else
      candAux signal_q16 config rest grad_curr room

/-- `find_peak_candidates`: rejects signals shorter than 3 samples, then
scans indices `1 .. length-2` for candidates (at most `max_peaks` of them,
in ascending order).  Returns the result code together with the candidate
index list (the contents of `peak_indices[0 .. *num_peaks)`). -/
def find_peak_candidates (signal_q16 : List Int) (config : PeakConfigFP)
    (max_peaks : Nat) : PeakResultFP × List Nat :=
  if signal_q16.length < 3 then
    (PEAK_FP_BUFFER_TOO_SMALL, [])
  else
    (PEAK_FP_OK,
      candAux signal_q16 config (List.range' 1 (signal_q16.length - 2))
        (compute_gradient_at signal_q16 0) max_peaks)

/-- One contour walk of `calculate_topological_prominence`, over the list of
sample values in walk order: stop at the first value `≥ peak_value`,
otherwise fold the conditional minimum update. -/
def walk_min (peak_value : Int) : List Int → Int → Int
  | [], running_min => running_min
  | v :: rest, running_min =>
    if peak_value ≤ v then running_min
    else walk_min peak_value rest (if v < running_min then v else running_min)

/-- `left_min` after the left contour walk: the walk visits
`signal[peak_idx-1], ..., signal[0]`, i.e. `(take peak_idx).reverse`. -/
def left_ref_min (signal_q16 : List Int) (peak_idx : Nat) : Int :=
  walk_min (signal_q16.getD peak_idx 0) (signal_q16.take peak_idx).reverse
    (signal_q16.getD peak_idx 0)

/-- `right_min` after the right contour walk: the walk visits
`signal[peak_idx+1], ..., signal[length-1]`, i.e. `drop (peak_idx+1)`. -/
def right_ref_min (signal_q16 : List Int) (peak_idx : Nat) : Int :=
  walk_min (signal_q16.getD peak_idx 0) (signal_q16.drop (peak_idx + 1))
    (signal_q16.getD peak_idx 0)

/-- `calculate_topological_prominence`: peak value minus the larger of the
two side minima; the final `int32_t` subtraction wraps on overflow. -/
def calculate_topological_prominence (signal_q16 : List Int)
    (peak_idx : Nat) : Int :=
  let peak_value := signal_q16.getD peak_idx 0
  let left_min := left_ref_min signal_q16 peak_idx
  let right_min := right_ref_min signal_q16 peak_idx
  let ref_level := if right_min < left_min then left_min else right_min
  wrap32 (peak_value - ref_level)

/-- `select_prominent_peak`: fold over the candidates keeping
`(max_prominence, best_idx)`, initialised to `(INT32_MIN, -1)`; a candidate
replaces the best when its prominence meets the threshold and strictly
exceeds the running maximum.  Returns the result code, the writes to
`*best_peak_idx` and the writes to `*best_prominence`
(`best_prominence_null` models a NULL `best_prominence` argument). -/
def select_prominent_peak (signal_q16 : List Int) (peak_indices : List Nat)
    (config : PeakConfigFP) (best_prominence_null : Bool) :
    PeakResultFP × List Int × List Int :=
  let st := peak_indices.foldl
    (fun (st : Int × Int) idx =>
      let prominence := calculate_topological_prominence signal_q16 idx
      if config.prominence_threshold_q16 ≤ prominence ∧ st.1 < prominence then
        (prominence, (idx : Int))
      else st)
    (-2147483648, -1)
  if 0 ≤ st.2 then
    (PEAK_FP_OK, [st.2], if best_prominence_null then [] else [st.1])
  else
    (PEAK_FP_NO_PEAK_FOUND, [], [])

/-- The acceptance test of the selection loop (line `prominence >=
config->prominence_threshold_q16`): the candidates whose topological
prominence meets the configured threshold. -/
def accepted_candidates (signal_q16 : List Int) (config : PeakConfigFP)
    (peak_indices : List Nat) : List Nat :=
  peak_indices.filter fun idx =>
    decide (config.prominence_threshold_q16 ≤
      calculate_topological_prominence signal_q16 idx)

/-- `find_prominent_peak_fp`: the static-buffer entry point.  `signal` is the
nullable `int16_t` input buffer (a memory, so that any validated `length`
can be read), `peak_index_null` models a NULL `peak_index` argument, and the
second component of the result is the list of values written to
`*peak_index`. -/
def find_prominent_peak_fp (signal : Option (Nat → Int)) (length : Int)
    (peak_index_null : Bool) (user_config : Option PeakConfigFP) :
    PeakResultFP × List Int :=
  if signal.isNone || peak_index_null then (PEAK_FP_INVALID_INPUT, [])
  else if length ≤ 0 ∨ MAX_SIGNAL_LENGTH < length then
    (PEAK_FP_INVALID_INPUT, [])
  else
    let sampleAt := signal.getD fun _ => 0
    let config := user_config.getD default_config_fp
    let s := (List.range length.toNat).map fun i => to_q16 (sampleAt i)
    let r := find_peak_candidates s config MAX_PEAKS
    if r.1 ≠ PEAK_FP_OK then (r.1, [])
    else if r.2.length = 0 then (PEAK_FP_NO_PEAK_FOUND, [])
    else
      let sel := select_prominent_peak s r.2 config true
      (sel.1, sel.2.1)

/-- `find_prominent_peak_fp_buffered`: the caller-buffer entry point.  The
two extra flags model NULL `signal_q16_buffer` / `peaks_buffer` arguments;
otherwise the body is the same computation as the static variant. -/
def find_prominent_peak_fp_buffered (signal : Option (Nat → Int))
    (length : Int) (peak_index_null : Bool)
    (user_config : Option PeakConfigFP) (signal_q16_buffer_null : Bool)
    (peaks_buffer_null : Bool) : PeakResultFP × List Int :=
  if signal.isNone || peak_index_null || signal_q16_buffer_null ||
      peaks_buffer_null then
    (PEAK_FP_INVALID_INPUT, [])
  else if length ≤ 0 ∨ MAX_SIGNAL_LENGTH < length then
    (PEAK_FP_INVALID_INPUT, [])
  else
    let sampleAt := signal.getD fun _ => 0
    let config := user_config.getD default_config_fp
    let s := (List.range length.toNat).map fun i => to_q16 (sampleAt i)
    let r := find_peak_candidates s config MAX_PEAKS
    if r.1 ≠ PEAK_FP_OK then (r.1, [])
    else if r.2.length = 0 then (PEAK_FP_NO_PEAK_FOUND, [])
    else
      let sel := select_prominent_peak s r.2 config true
      (sel.1, sel.2.1)

/-- The candidate acceptance condition of the spec (claim C4), stated with
the gradient of the previous index and of the current index, the strict
local-maximum and noise-floor comparisons, and the genuine absolute value of
the previous index's gradient. -/
def peak_cand_cond (signal_q16 : List Int) (config : PeakConfigFP)
    (i : Nat) : Prop :=
  ((0 < compute_gradient_at signal_q16 (i - 1) ∧
      compute_gradient_at signal_q16 i ≤ 0) ∨
    (signal_q16.getD (i - 1) 0 < signal_q16.getD i 0 ∧
      signal_q16.getD (i + 1) 0 < signal_q16.getD i 0)) ∧
  config.noise_floor_q16 < signal_q16.getD i 0 ∧
  config.gradient_threshold_q16 ≤ |compute_gradient_at signal_q16 (i - 1)|

instance (signal_q16 : List Int) (config : PeakConfigFP) :
    DecidablePred (peak_cand_cond signal_q16 config) := fun _ => by
  unfold peak_cand_cond; infer_instance

/-- The state of the selection fold, viewed through the candidate it has
retained so far: no qualifying candidate yet, or the first maximal one. -/
def sel_state (signal_q16 : List Int) : Option Nat → Int × Int
  | none => (-2147483648, -1)
  | some b => (calculate_topological_prominence signal_q16 b, (b : Int))

/-! ## Basic arithmetic lemmas -/

/-- `wrap32` lands in the `int32_t` range. -/
theorem wrap32_lb (x : Int) : -2147483648 ≤ wrap32 x := by
  unfold wrap32
  have := Int.emod_nonneg (x + 2147483648)
    (show (4294967296 : Int) ≠ 0 by decide)
  omega

/-- `wrap32` lands in the `int32_t` range. -/
theorem wrap32_ub (x : Int) : wrap32 x < 2147483648 := by
  unfold wrap32
  have := Int.emod_lt_of_pos (x + 2147483648)
    (show (0 : Int) < 4294967296 by decide)
  omega

/-- `wrap32` is the identity on the `int32_t` range. -/
theorem wrap32_eq_self {x : Int} (h1 : -2147483648 ≤ x) (h2 : x < 2147483648) :
    wrap32 x = x := by
  unfold wrap32
  rw [Int.emod_eq_of_lt (by omega) (by omega)]
  omega

/-- The C conditional `(b > a) ? b : a` written in the source as
`(left > right) ? left : right` is `max`. -/
theorem ite_lt_eq_max (a b : Int) : (if b < a then a else b) = max a b := by
  rw [max_def]
  split_ifs <;> omega

/-! ## Contour-walk lemmas -/

/-- The running minimum of a contour walk never exceeds its start value. -/
theorem walk_min_le (pv : Int) : ∀ (l : List Int) (m : Int),
    walk_min pv l m ≤ m
  | [], _ => le_refl _
  | v :: rest, m => by
    unfold walk_min
    split
    · exact le_refl _
    · exact le_trans (walk_min_le pv rest _) (by split <;> omega)

/-- Pulling one argument out of a `foldr min`. -/
theorem foldr_min_min (l : List Int) : ∀ (a b : Int),
    l.foldr min (min a b) = min a (l.foldr min b) := by
  induction l with
  | nil => intro a b; rfl
  | cons c l ih =>
    intro a b
    simp only [List.foldr_cons, ih, min_left_comm]

/-- A contour walk computes the running minimum of the values strictly below
the peak value that precede the first value `≥` the peak value. -/
theorem walk_min_eq_takeWhile (pv : Int) : ∀ (l : List Int) (m : Int),
    walk_min pv l m = (l.takeWhile fun v => decide (v < pv)).foldr min m := by
  intro l
  induction l with
  | nil => intro m; rfl
  | cons v rest ih =>
    intro m
    unfold walk_min
    by_cases h : pv ≤ v
    · rw [if_pos h, List.takeWhile_cons_of_neg (by simpa using h)]
      rfl
    · have hv : v < pv := by omega
      rw [if_neg h, List.takeWhile_cons_of_pos (by simpa using hv),
        List.foldr_cons, ih]
      have : (if v < m then v else m) = min v m := by
        rw [min_def]; split_ifs <;> omega
      rw [this, foldr_min_min]

/-! ## Gradient lemmas -/

/-- Every gradient the code computes lies in the `int32_t` range. -/
theorem compute_gradient_at_range (sig : List Int) (i : Nat) :
    -2147483648 ≤ compute_gradient_at sig i ∧
      compute_gradient_at sig i < 2147483648 := by
  unfold compute_gradient_at asr1
  split_ifs
  · exact ⟨wrap32_lb _, wrap32_ub _⟩
  · exact ⟨wrap32_lb _, wrap32_ub _⟩
  · have h1 := wrap32_lb (sig.getD (i + 1) 0 - sig.getD (i - 1) 0)
    have h2 := wrap32_ub (sig.getD (i + 1) 0 - sig.getD (i - 1) 0)
    omega

/-- An interior (central-difference) gradient is at least `-2^30`, hence
never `INT32_MIN`. -/
theorem interior_grad_ne_min (sig : List Int) (i : Nat) (h0 : i ≠ 0)
    (hl : i ≠ sig.length - 1) :
    compute_gradient_at sig i ≠ -2147483648 := by
  unfold compute_gradient_at asr1
  rw [if_neg h0, if_neg hl]
  have h1 := wrap32_lb (sig.getD (i + 1) 0 - sig.getD (i - 1) 0)
  have h2 := wrap32_ub (sig.getD (i + 1) 0 - sig.getD (i - 1) 0)
  omega

/-! ## Result-shape lemmas for the selection and candidate stages -/

/-- `select_prominent_peak` returns either success or "no peak found". -/
theorem select_prominent_peak_code (sig : List Int) (cands : List Nat)
    (cfg : PeakConfigFP) (pn : Bool) :
    (select_prominent_peak sig cands cfg pn).1 = PEAK_FP_OK ∨
      (select_prominent_peak sig cands cfg pn).1 = PEAK_FP_NO_PEAK_FOUND := by
  unfold select_prominent_peak
  dsimp only
  split_ifs <;> simp

/-- `select_prominent_peak` writes `*best_peak_idx` exactly once on success
and never otherwise. -/
theorem select_prominent_peak_writes (sig : List Int) (cands : List Nat)
    (cfg : PeakConfigFP) (pn : Bool) :
    (select_prominent_peak sig cands cfg pn).2.1.length =
      (if (select_prominent_peak sig cands cfg pn).1 = PEAK_FP_OK
        then 1 else 0) := by
  unfold select_prominent_peak
  dsimp only
  split_ifs <;> simp_all

/-- The result code of `find_peak_candidates` depends only on the length
check, and the candidate list is empty on failure. -/
theorem find_peak_candidates_code (sig : List Int) (cfg : PeakConfigFP)
    (mp : Nat) :
    find_peak_candidates sig cfg mp =
      if sig.length < 3 then (PEAK_FP_BUFFER_TOO_SMALL, [])
      else (PEAK_FP_OK,
        candAux sig cfg (List.range' 1 (sig.length - 2))
          (compute_gradient_at sig 0) mp) := rfl

/-! ## Claim theorems -/

/-- The in-range half of claim C2: the round trip through Q16.16 is the
identity on every `int16_t` sample. -/
theorem from_q16_to_q16_roundtrip (x : Int) (h1 : -32768 ≤ x)
    (h2 : x ≤ 32767) : from_q16 (to_q16 x) = x := by
  unfold from_q16 to_q16
  dsimp only
  rw [wrap32_eq_self (by omega) (by omega)]
  have hdiv : (x * 65536 + 32768) / 65536 = x := by omega
  rw [hdiv]
  split_ifs <;> omega

/-- C2 (code_bug evidence): at `value_q16 = INT32_MAX` the rounding bias
`+ 32768` overflows `int32_t`, so `from_q16` returns `INT16_MIN` instead of
saturating to `INT16_MAX`, although the true value `32768.5` is above the
`int16_t` range (the in-range round trip itself does hold, see
`from_q16_to_q16_roundtrip`). -/
theorem from_q16_wraps_at_int32_max :
    from_q16 2147483647 = -32768 ∧ from_q16 2147483647 ≠ 32767 := by
  decide

/-- C7: with the other configuration fields equal, lowering the prominence
threshold only enlarges the set of candidates accepted by the selection
test `prominence >= config->prominence_threshold_q16`. -/
theorem accepted_candidates_monotone (sig : List Int) (cands : List Nat)
    (cfg1 cfg2 : PeakConfigFP)
    (_hgrad : cfg2.gradient_threshold_q16 = cfg1.gradient_threshold_q16)
    (_hnoise : cfg2.noise_floor_q16 = cfg1.noise_floor_q16)
    (hthresh : cfg2.prominence_threshold_q16 ≤ cfg1.prominence_threshold_q16) :
    ∀ c ∈ accepted_candidates sig cfg1 cands,
      c ∈ accepted_candidates sig cfg2 cands := by
  intro c hc
  simp only [accepted_candidates, List.mem_filter, decide_eq_true_eq] at hc ⊢
  exact ⟨hc.1, le_trans hthresh hc.2⟩

/-- C7 witness: a candidate accepted at threshold 2.0 is still accepted
at threshold 1.0. -/
theorem accepted_candidates_monotone_witness :
    (1 : Nat) ∈ accepted_candidates [0, 131072, 0] ⟨65536, 6553, 655360⟩ [1] :=
  accepted_candidates_monotone [0, 131072, 0] [1]
    ⟨131072, 6553, 655360⟩ ⟨65536, 6553, 655360⟩ rfl rfl (by decide)
    1 (by decide)

/-- C8: with non-NULL caller-supplied scratch buffers, the buffered entry
point returns the same result code and performs the same writes to
`*peak_index` as the static-buffer entry point, on every signal, length and
configuration. -/
theorem buffered_equals_static (signal : Option (Nat → Int)) (length : Int)
    (pn : Bool) (uc : Option PeakConfigFP) :
    find_prominent_peak_fp_buffered signal length pn uc false false =
      find_prominent_peak_fp signal length pn uc := by
  simp only [find_prominent_peak_fp_buffered, find_prominent_peak_fp,
    Bool.or_false]

/-- C10: `*peak_index` is written exactly once when `find_prominent_peak_fp`
returns success and is never written otherwise (the second component of the
model's result is the list of all writes to `*peak_index`, in order). -/
theorem peak_index_written_iff_success (signal : Option (Nat → Int))
    (length : Int) (pn : Bool) (uc : Option PeakConfigFP) :
    (find_prominent_peak_fp signal length pn uc).2.length =
      (if (find_prominent_peak_fp signal length pn uc).1 = PEAK_FP_OK
        then 1 else 0) := by
  unfold find_prominent_peak_fp
  dsimp only
  split_ifs <;> simp_all [select_prominent_peak_writes]

/-! ## Prominence lemmas and claims C1, C9, C3 -/

/-- The reference level of the prominence computation is the `max` of the
two side minima. -/
theorem prominence_eq_wrap (sig : List Int) (i : Nat) :
    calculate_topological_prominence sig i =
      wrap32 (sig.getD i 0 -
        max (left_ref_min sig i) (right_ref_min sig i)) := by
  unfold calculate_topological_prominence
  dsimp only
  rw [ite_lt_eq_max]

/-- The left walk minimum, characterised declaratively: the minimum of the
peak value and the prefix of values strictly below it that precede the
first value `≥` the peak value (walking leftwards from the peak). -/
theorem left_ref_min_eq (sig : List Int) (i : Nat) :
    left_ref_min sig i =
      ((sig.take i).reverse.takeWhile fun v =>
        decide (v < sig.getD i 0)).foldr min (sig.getD i 0) := by
  unfold left_ref_min
  exact walk_min_eq_takeWhile _ _ _

/-- The right walk minimum, characterised declaratively. -/
theorem right_ref_min_eq (sig : List Int) (i : Nat) :
    right_ref_min sig i =
      ((sig.drop (i + 1)).takeWhile fun v =>
        decide (v < sig.getD i 0)).foldr min (sig.getD i 0) := by
  unfold right_ref_min
  exact walk_min_eq_takeWhile _ _ _

/-- The side minima never exceed the peak value. -/
theorem ref_min_le_peak (sig : List Int) (i : Nat) :
    left_ref_min sig i ≤ sig.getD i 0 ∧
      right_ref_min sig i ≤ sig.getD i 0 := by
  constructor
  · unfold left_ref_min; exact walk_min_le _ _ _
  · unfold right_ref_min; exact walk_min_le _ _ _

/-- C1 (amended): provided the final `int32_t` subtraction does not
overflow, the prominence is exactly the peak value minus the *greater* of
the two side running minima, each walk stopping at the first sample `≥` the
peak value or at the boundary. -/
theorem prominence_eq_peak_minus_greater_side_min (sig : List Int) (i : Nat)
    (_hi : i < sig.length)
    (hov : sig.getD i 0 -
      max (left_ref_min sig i) (right_ref_min sig i) ≤ 2147483647) :
    calculate_topological_prominence sig i =
      sig.getD i 0 -
        max
          (((sig.take i).reverse.takeWhile fun v =>
              decide (v < sig.getD i 0)).foldr min (sig.getD i 0))
          (((sig.drop (i + 1)).takeWhile fun v =>
              decide (v < sig.getD i 0)).foldr min (sig.getD i 0)) := by
  have hm : max (left_ref_min sig i) (right_ref_min sig i) ≤ sig.getD i 0 :=
    max_le (ref_min_le_peak sig i).1 (ref_min_le_peak sig i).2
  rw [prominence_eq_wrap, wrap32_eq_self (by omega) (by omega),
    left_ref_min_eq, right_ref_min_eq]

/-- C1 witness: on the spec's Scenario C signal (Q16.16 values of
`[0,10,5,20,5,15,0]`) the prominence at index 3 is exactly `20 * 2^16`. -/
theorem prominence_eq_peak_minus_greater_side_min_witness :
    calculate_topological_prominence
        [0, 655360, 327680, 1310720, 327680, 983040, 0] 3 = 1310720 :=
  (prominence_eq_peak_minus_greater_side_min
      [0, 655360, 327680, 1310720, 327680, 983040, 0] 3
      (by decide) (by decide)).trans (by decide)

/-- C1 counterexample: at an `int32_t` signal with a full-range swing the
final subtraction wraps, so the returned value is not the peak value minus
the greater side minimum (the code returns `-1`, the claimed value is
`2^32 - 1`). -/
theorem prominence_peak_minus_ref_counterexample :
    1 < ([-2147483648, 2147483647, -2147483648] : List Int).length ∧
      calculate_topological_prominence
          [-2147483648, 2147483647, -2147483648] 1 ≠
        ([-2147483648, 2147483647, -2147483648] : List Int).getD 1 0 -
          max (left_ref_min [-2147483648, 2147483647, -2147483648] 1)
            (right_ref_min [-2147483648, 2147483647, -2147483648] 1) := by
  decide

/-- C9 (amended): provided the final `int32_t` subtraction does not
overflow, the prominence is non-negative: both side minima start at the
peak value and only decrease, so the reference level never exceeds the
peak value. -/
theorem prominence_nonneg (sig : List Int) (i : Nat)
    (hov : sig.getD i 0 -
      max (left_ref_min sig i) (right_ref_min sig i) ≤ 2147483647) :
    0 ≤ calculate_topological_prominence sig i := by
  have hm : max (left_ref_min sig i) (right_ref_min sig i) ≤ sig.getD i 0 :=
    max_le (ref_min_le_peak sig i).1 (ref_min_le_peak sig i).2
  rw [prominence_eq_wrap, wrap32_eq_self (by omega) (by omega)]
  omega

/-- C9 witness: non-negativity at a concrete in-range signal. -/
theorem prominence_nonneg_witness :
    ([0, 131072, 0] : List Int).getD 1 0 -
        max (left_ref_min [0, 131072, 0] 1)
          (right_ref_min [0, 131072, 0] 1) ≤ 2147483647 ∧
      0 ≤ calculate_topological_prominence [0, 131072, 0] 1 :=
  ⟨by decide, prominence_nonneg [0, 131072, 0] 1 (by decide)⟩

/-- C9 counterexample: for the Q16.16 image of the `int16_t` samples
`[-32768, 32767, -32768]`, `peak - ref_level = 4294901760` overflows
`int32_t` and the code returns the negative value `-65536`. -/
theorem prominence_nonneg_counterexample :
    1 < ([-2147483648, 2147418112, -2147483648] : List Int).length ∧
      calculate_topological_prominence
        [-2147483648, 2147418112, -2147483648] 1 < 0 := by
  decide

/-- C3 (amended): the prominence computation itself is reversal-symmetric:
at the mirrored index of the reversed signal both the sample value and the
topological prominence are unchanged. -/
theorem prominence_reversal_symmetric (sig : List Int) (i : Nat)
    (hi : i < sig.length) :
    sig.reverse.getD (sig.length - 1 - i) 0 = sig.getD i 0 ∧
      calculate_topological_prominence sig.reverse (sig.length - 1 - i) =
        calculate_topological_prominence sig i := by
  have hj : sig.length - 1 - i < sig.length := by omega
  have hget : sig.reverse.getD (sig.length - 1 - i) 0 = sig.getD i 0 := by
    rw [List.getD_eq_getElem?_getD, List.getD_eq_getElem?_getD,
      List.getElem?_reverse hj]
    have h2 : sig.length - 1 - (sig.length - 1 - i) = i := by omega
    rw [h2]
  have htake : sig.reverse.take (sig.length - 1 - i) =
      (sig.drop (i + 1)).reverse := by
    rw [List.take_reverse]
    have h3 : sig.length - (sig.length - 1 - i) = i + 1 := by omega
    rw [h3]
  have hdrop : sig.reverse.drop (sig.length - 1 - i + 1) =
      (sig.take i).reverse := by
    rw [List.drop_reverse]
    have h4 : sig.length - (sig.length - 1 - i + 1) = i := by omega
    rw [h4]
  have hlr : left_ref_min sig.reverse (sig.length - 1 - i) =
      right_ref_min sig i := by
    unfold left_ref_min right_ref_min
    rw [hget, htake, List.reverse_reverse]
  have hrl : right_ref_min sig.reverse (sig.length - 1 - i) =
      left_ref_min sig i := by
    unfold right_ref_min left_ref_min
    rw [hget, hdrop]
  refine ⟨hget, ?_⟩
  rw [prominence_eq_wrap, prominence_eq_wrap, hget, hlr, hrl, max_comm]

/-- C3 witness: reversal symmetry of the prominence at index 3 of the
Scenario C signal. -/
theorem prominence_reversal_symmetric_witness :
    3 < ([0, 655360, 327680, 1310720, 327680, 983040, 0] : List Int).length ∧
      calculate_topological_prominence
          ([0, 655360, 327680, 1310720, 327680, 983040, 0] : List Int).reverse
          (([0, 655360, 327680, 1310720, 327680, 983040, 0] : List Int).length -
            1 - 3) = calculate_topological_prominence
          [0, 655360, 327680, 1310720, 327680, 983040, 0] 3 :=
  ⟨by decide,
    (prominence_reversal_symmetric
        [0, 655360, 327680, 1310720, 327680, 983040, 0] 3 (by decide)).2⟩

/-- C3 counterexample: a peak with a steep rise and a shallow fall is found
by the forward scan but the gradient-magnitude test fails on the reversed
signal (configuration: prominence 1.0, gradient 10.0, noise floor 10.0),
so the reversed run finds no peak at all, let alone the mirrored index. -/
theorem reversal_symmetry_counterexample :
    (find_prominent_peak_fp
        (some fun k => ([0, 50, 49, 48, 47, 0] : List Int).getD k 0) 6 false
        (some ⟨65536, 655360, 655360⟩)).1 = PEAK_FP_OK ∧
      (find_prominent_peak_fp
        (some fun k => ([0, 50, 49, 48, 47, 0] : List Int).getD k 0) 6 false
        (some ⟨65536, 655360, 655360⟩)).2 = [1] ∧
      (find_prominent_peak_fp
        (some fun k =>
          (([0, 50, 49, 48, 47, 0] : List Int).reverse).getD k 0) 6 false
        (some ⟨65536, 655360, 655360⟩)).1 = PEAK_FP_NO_PEAK_FOUND := by
  decide

/-! ## Candidate-scan characterisation (claim C4) -/

/-- When the previous gradient is not `INT32_MIN`, the code's conditional
negation `grad_mag` is the genuine absolute value. -/
theorem grad_mag_eq_abs {gp : Int} (hlb : -2147483648 ≤ gp)
    (hne : gp ≠ -2147483648) :
    (if 0 < gp then gp else wrap32 (-gp)) = |gp| := by
  by_cases h : 0 < gp
  · rw [if_pos h, abs_of_pos h]
  · have h0 : gp ≤ 0 := by omega
    rw [if_neg h, wrap32_eq_self (by omega) (by omega), abs_of_nonpos h0]

/-- The scan-step test of `find_peak_candidates` agrees with the spec's
acceptance condition whenever the previous gradient is not `INT32_MIN`. -/
theorem cand_check_iff (sig : List Int) (cfg : PeakConfigFP) (i : Nat)
    (hgp : compute_gradient_at sig (i - 1) ≠ -2147483648) :
    (((decide (0 < compute_gradient_at sig (i - 1)) &&
        decide (compute_gradient_at sig i ≤ 0)) ||
      (decide (sig.getD (i - 1) 0 < sig.getD i 0) &&
        decide (sig.getD (i + 1) 0 < sig.getD i 0))) &&
      decide (cfg.noise_floor_q16 < sig.getD i 0) &&
      decide (cfg.gradient_threshold_q16 ≤
        (if 0 < compute_gradient_at sig (i - 1) then
          compute_gradient_at sig (i - 1)
        else wrap32 (-compute_gradient_at sig (i - 1))))) = true ↔
    peak_cand_cond sig cfg i := by
  rw [show wrap32 (-compute_gradient_at sig (i - 1)) =
      wrap32 (-(compute_gradient_at sig (i - 1))) from rfl]
  rw [grad_mag_eq_abs (compute_gradient_at_range sig (i - 1)).1 hgp]
  simp [peak_cand_cond, and_assoc]

/-- The scan loop produces exactly the first `room` indices of the scan
range that satisfy the spec's acceptance condition, provided the gradient
it starts from (the previous index's) is not `INT32_MIN`. -/
theorem candAux_spec (sig : List Int) (cfg : PeakConfigFP) :
    ∀ (k i room : Nat), 1 ≤ i → i + k ≤ sig.length - 1 →
      compute_gradient_at sig (i - 1) ≠ -2147483648 →
      candAux sig cfg (List.range' i k) (compute_gradient_at sig (i - 1))
          room =
        ((List.range' i k).filter fun j =>
          decide (peak_cand_cond sig cfg j)).take room := by
  intro k
  induction k with
  | zero =>
    intro i room _ _ _
    rw [show List.range' i 0 = [] from rfl]
    simp [candAux]
  | succ k ih =>
    intro i room h1 h2 hgp
    rw [List.range'_succ]
    simp only [candAux]
    have hgc : compute_gradient_at sig i ≠ -2147483648 :=
      interior_grad_ne_min sig i (by omega) (by omega)
    by_cases hcond : peak_cand_cond sig cfg i
    · rw [if_pos ((cand_check_iff sig cfg i hgp).mpr hcond)]
      cases room with
      | zero => rfl
      | succ r =>
        have hrec := ih (i + 1) r (by omega) (by omega)
          (by simpa using hgc)
        simp only [Nat.add_sub_cancel] at hrec
        rw [List.filter_cons_of_pos (by simpa using hcond),
          List.take_succ_cons]
        exact congrArg (List.cons i) hrec
    · rw [if_neg fun hB => hcond ((cand_check_iff sig cfg i hgp).mp hB)]
      have hrec := ih (i + 1) room (by omega) (by omega)
        (by simpa using hgc)
      simp only [Nat.add_sub_cancel] at hrec
      rw [List.filter_cons_of_neg (by simpa using hcond), hrec]

/-- C4 (amended): for a signal of length at least 3 whose index-0 gradient
is not `INT32_MIN`, the candidate list is exactly the first
`min(MAX_PEAKS, total)` indices of `[1, length-2]`, in ascending order,
that satisfy the acceptance condition (zero-crossing or local maximum,
above the noise floor, and previous-gradient magnitude at least the
threshold). -/
theorem find_peak_candidates_characterization (sig : List Int)
    (cfg : PeakConfigFP) (h3 : 3 ≤ sig.length)
    (hg : compute_gradient_at sig 0 ≠ -2147483648) :
    find_peak_candidates sig cfg MAX_PEAKS =
      (PEAK_FP_OK,
        ((List.range' 1 (sig.length - 2)).filter fun j =>
          decide (peak_cand_cond sig cfg j)).take MAX_PEAKS) := by
  unfold find_peak_candidates
  rw [if_neg (by omega)]
  rw [candAux_spec sig cfg (sig.length - 2) 1 MAX_PEAKS (le_refl 1)
    (by omega) hg]

/-- C4 witness: the characterisation at the Q16.16 image of `[0, 20, 0]`
with the default configuration. -/
theorem find_peak_candidates_characterization_witness :
    3 ≤ ([0, 1310720, 0] : List Int).length ∧
      find_peak_candidates [0, 1310720, 0] default_config_fp MAX_PEAKS =
        (PEAK_FP_OK,
          ((List.range' 1 (([0, 1310720, 0] : List Int).length - 2)).filter
            fun j =>
              decide (peak_cand_cond [0, 1310720, 0] default_config_fp j)
            ).take MAX_PEAKS) :=
  ⟨by decide,
    find_peak_candidates_characterization [0, 1310720, 0] default_config_fp
      (by decide) (by decide)⟩

/-- C4 counterexample: on the Q16.16 image of the `int16_t` samples
`[-16384, 16384, 0]` the index-0 gradient is `INT32_MIN`; the C negation
wraps, the magnitude test compares the threshold against `INT32_MIN` and
rejects index 1, although index 1 satisfies the claimed acceptance
condition (local maximum, above noise, `|gradient| = 2^31 ≥ threshold`). -/
theorem candidate_characterization_counterexample :
    find_peak_candidates [-1073741824, 1073741824, 0] default_config_fp
        MAX_PEAKS ≠
      (PEAK_FP_OK,
        ((List.range' 1
            (([-1073741824, 1073741824, 0] : List Int).length - 2)).filter
          fun j =>
            decide (peak_cand_cond [-1073741824, 1073741824, 0]
              default_config_fp j)).take MAX_PEAKS) := by
  decide

/-! ## Selection characterisation (claim C5) -/

/-- The selection fold simulates Mathlib's first-tie-wins `argAux` fold over
the threshold-filtered candidate list, as long as the threshold exceeds the
`INT32_MIN` initialisation of `max_prominence`. -/
theorem sel_foldl_argAux (sig : List Int) (cfg : PeakConfigFP)
    (h : -2147483648 < cfg.prominence_threshold_q16) :
    ∀ (cands : List Nat) (o : Option Nat),
      cands.foldl
        (fun (st : Int × Int) idx =>
          if cfg.prominence_threshold_q16 ≤
                calculate_topological_prominence sig idx ∧
              st.1 < calculate_topological_prominence sig idx then
            (calculate_topological_prominence sig idx, (idx : Int))
          else st)
        (sel_state sig o) =
      sel_state sig
        ((cands.filter fun c =>
            decide (cfg.prominence_threshold_q16 ≤
              calculate_topological_prominence sig c)).foldl
          (List.argAux fun b c =>
            calculate_topological_prominence sig c <
              calculate_topological_prominence sig b) o) := by
  intro cands
  induction cands with
  | nil => intro o; rfl
  | cons c rest ih =>
    intro o
    rw [List.foldl_cons]
    by_cases hq : cfg.prominence_threshold_q16 ≤
        calculate_topological_prominence sig c
    · rw [List.filter_cons_of_pos (by simpa using hq), List.foldl_cons]
      have hstep :
          (if cfg.prominence_threshold_q16 ≤
                calculate_topological_prominence sig c ∧
              (sel_state sig o).1 < calculate_topological_prominence sig c
          then (calculate_topological_prominence sig c, (c : Int))
          else sel_state sig o) =
          sel_state sig (List.argAux (fun b c0 =>
            calculate_topological_prominence sig c0 <
              calculate_topological_prominence sig b) o c) := by
        cases o with
        | none =>
          rw [if_pos ⟨hq, by show (-2147483648 : Int) < _; omega⟩]
          rfl
        | some b =>
          by_cases hlt : calculate_topological_prominence sig b <
              calculate_topological_prominence sig c
          · rw [if_pos ⟨hq, hlt⟩]
            simp only [List.argAux, sel_state]
            rw [if_pos hlt]
          · rw [if_neg fun hco => hlt hco.2]
            simp only [List.argAux, sel_state]
            rw [if_neg hlt]
      rw [hstep]
      exact ih _
    · rw [List.filter_cons_of_neg (by simpa using hq)]
      rw [show (if cfg.prominence_threshold_q16 ≤
              calculate_topological_prominence sig c ∧
            (sel_state sig o).1 < calculate_topological_prominence sig c
          then (calculate_topological_prominence sig c, (c : Int))
          else sel_state sig o) = sel_state sig o
        from if_neg fun hco => hq hco.1]
      exact ih o

/-- C5 (amended): when the configured prominence threshold exceeds
`INT32_MIN`, `select_prominent_peak` returns `argmax` of the prominence
over the candidates meeting the threshold — the candidate with the largest
prominence, ties resolved to the first in scan order — writing its signal
index once to `*best_peak_idx` (and the prominence to `*best_prominence`
when that pointer is non-NULL), and returns "no peak found" exactly when no
candidate meets the threshold. -/
theorem select_prominent_peak_argmax_spec (sig : List Int)
    (cands : List Nat) (cfg : PeakConfigFP) (pn : Bool)
    (h : -2147483648 < cfg.prominence_threshold_q16) :
    select_prominent_peak sig cands cfg pn =
      match (cands.filter fun c =>
          decide (cfg.prominence_threshold_q16 ≤
            calculate_topological_prominence sig c)).argmax
          (calculate_topological_prominence sig) with
      | none => (PEAK_FP_NO_PEAK_FOUND, [], [])
      | some b =>
        (PEAK_FP_OK, [(b : Int)],
          if pn then [] else [calculate_topological_prominence sig b]) := by
  unfold select_prominent_peak List.argmax
  dsimp only
  rw [show ((-2147483648 : Int), (-1 : Int)) = sel_state sig none from rfl,
    sel_foldl_argAux sig cfg h cands none]
  cases hM : (cands.filter fun c =>
      decide (cfg.prominence_threshold_q16 ≤
        calculate_topological_prominence sig c)).foldl
      (List.argAux fun b c =>
        calculate_topological_prominence sig c <
          calculate_topological_prominence sig b) none with
  | none => simp [sel_state]
  | some b => simp [sel_state]

/-- C5 witness: on the Q16.16 image of `[0, 2, 0]` with the default
configuration and candidate list `[1]`, selection returns index 1. -/
theorem select_prominent_peak_argmax_spec_witness :
    select_prominent_peak [0, 131072, 0] [1] default_config_fp true =
      (PEAK_FP_OK, [1], []) :=
  (select_prominent_peak_argmax_spec [0, 131072, 0] [1] default_config_fp
      true (by decide)).trans (by decide)

/-- C5 counterexample: with threshold `INT32_MIN` and a candidate whose
(wrapped) prominence is exactly `INT32_MIN`, the candidate meets the
threshold but the strict comparison against the `INT32_MIN` initialisation
never fires, so the code reports "no peak found" instead of returning the
qualifying candidate. -/
theorem select_skips_int32_min_prominence :
    (select_prominent_peak [-1073741824, 1073741824, -1073741824] [1]
        ⟨-2147483648, 6553, 655360⟩ true).1 = PEAK_FP_NO_PEAK_FOUND ∧
      (⟨-2147483648, 6553, 655360⟩ : PeakConfigFP).prominence_threshold_q16 ≤
        calculate_topological_prominence
          [-1073741824, 1073741824, -1073741824] 1 := by
  decide

/-! ## Error classification of the entry point (claim C6) -/

/-- On a valid-range call the entry point reduces to the
conversion/detection/selection pipeline. -/
theorem find_fp_valid_eval (f : Nat → Int) (length : Int)
    (uc : Option PeakConfigFP)
    (hlen : ¬(length ≤ 0 ∨ MAX_SIGNAL_LENGTH < length)) :
    find_prominent_peak_fp (some f) length false uc =
      (let s := (List.range length.toNat).map fun i => to_q16 (f i)
       let config := uc.getD default_config_fp
       let r := find_peak_candidates s config MAX_PEAKS
       if r.1 ≠ PEAK_FP_OK then (r.1, [])
       else if r.2.length = 0 then (PEAK_FP_NO_PEAK_FOUND, [])
       else
         let sel := select_prominent_peak s r.2 config true
         (sel.1, sel.2.1)) := by
  unfold find_prominent_peak_fp
  dsimp only
  rw [if_neg (by simp), if_neg hlen]
  simp only [Option.getD_some]

/-- C6: `find_prominent_peak_fp` reports "invalid input" exactly for a NULL
signal or NULL `peak_index` or a length outside `(0, MAX_SIGNAL_LENGTH]`,
and — given non-NULL pointers and a length in that range — reports "buffer
too small" exactly for lengths below 3; neither code depends on the sample
values. -/
theorem find_fp_error_classification (signal : Option (Nat → Int))
    (length : Int) (pn : Bool) (uc : Option PeakConfigFP) :
    ((find_prominent_peak_fp signal length pn uc).1 = PEAK_FP_INVALID_INPUT ↔
      (signal = none ∨ pn = true ∨ length ≤ 0 ∨
        MAX_SIGNAL_LENGTH < length)) ∧
    (signal ≠ none → pn = false → 0 < length → length ≤ MAX_SIGNAL_LENGTH →
      ((find_prominent_peak_fp signal length pn uc).1 =
          PEAK_FP_BUFFER_TOO_SMALL ↔ length < 3)) := by
  cases signal with
  | none =>
    refine ⟨?_, fun hs => absurd rfl hs⟩
    simp [find_prominent_peak_fp]
  | some f =>
    cases pn with
    | true =>
      refine ⟨?_, fun _ hp => by cases hp⟩
      simp [find_prominent_peak_fp]
    | false =>
      by_cases hlen : length ≤ 0 ∨ MAX_SIGNAL_LENGTH < length
      · constructor
        · simp only [find_prominent_peak_fp, Option.isNone_some,
            Bool.false_or, if_false, if_pos hlen]
          simp [hlen]
        · intro _ _ hl1 hl2
          exfalso
          unfold MAX_SIGNAL_LENGTH at hlen hl2
          omega
      · have hrw := find_fp_valid_eval f length uc hlen
        have hnot_rhs : ¬((some f : Option (Nat → Int)) = none ∨
            false = true ∨ length ≤ 0 ∨ MAX_SIGNAL_LENGTH < length) := by
          rintro (h | h | h | h)
          · exact Option.noConfusion h
          · exact Bool.noConfusion h
          · exact hlen (Or.inl h)
          · exact hlen (Or.inr h)
        have hpos : 0 < length := by
          rcases lt_or_le 0 length with h | h
          · exact h
          · exact absurd (Or.inl h) hlen
        by_cases h3 : ((List.range length.toNat).map fun i =>
            to_q16 (f i)).length < 3
        · have hcode : (find_prominent_peak_fp (some f) length false uc).1 =
              PEAK_FP_BUFFER_TOO_SMALL := by
            rw [hrw]
            dsimp only
            rw [show find_peak_candidates
                ((List.range length.toNat).map fun i => to_q16 (f i))
                (uc.getD default_config_fp) MAX_PEAKS =
                (PEAK_FP_BUFFER_TOO_SMALL, []) from by
              unfold find_peak_candidates; rw [if_pos h3]]
            rfl
          have hlt3 : length < 3 := by
            simp only [List.length_map, List.length_range] at h3
            omega
          exact ⟨iff_of_false (by rw [hcode]; decide) hnot_rhs,
            fun _ _ _ _ => iff_of_true hcode hlt3⟩
        · have hge3 : ¬(length < 3) := by
            simp only [List.length_map, List.length_range] at h3
            omega
          have hcode : (find_prominent_peak_fp (some f) length false uc).1 =
              PEAK_FP_OK ∨
              (find_prominent_peak_fp (some f) length false uc).1 =
                PEAK_FP_NO_PEAK_FOUND := by
            rw [hrw]
            dsimp only
            have hr1 : (find_peak_candidates
                ((List.range length.toNat).map fun i => to_q16 (f i))
                (uc.getD default_config_fp) MAX_PEAKS).1 = PEAK_FP_OK := by
              unfold find_peak_candidates
              rw [if_neg h3]
            rw [if_neg fun h => h hr1]
            by_cases h0 : (find_peak_candidates
                ((List.range length.toNat).map fun i => to_q16 (f i))
                (uc.getD default_config_fp) MAX_PEAKS).2.length = 0
            · rw [if_pos h0]
              exact Or.inr rfl
            · rw [if_neg h0]
              exact select_prominent_peak_code _ _ _ _
          have hni : ¬((find_prominent_peak_fp (some f) length false uc).1 =
              PEAK_FP_INVALID_INPUT) := by
            rcases hcode with h | h <;> rw [h] <;> decide
          have hnt : ¬((find_prominent_peak_fp (some f) length false uc).1 =
              PEAK_FP_BUFFER_TOO_SMALL) := by
            rcases hcode with h | h <;> rw [h] <;> decide
          exact ⟨iff_of_false hni hnot_rhs,
            fun _ _ _ _ => iff_of_false hnt hge3⟩

/-- C6 witness: a non-NULL two-sample call is classified "buffer too
small". -/
theorem find_fp_error_classification_witness :
    (find_prominent_peak_fp (some fun _ => 0) 2 false none).1 =
      PEAK_FP_BUFFER_TOO_SMALL :=
  ((find_fp_error_classification (some fun _ => 0) 2 false none).2
    (fun h => Option.noConfusion h) rfl (by decide) (by decide)).mpr
    (by decide)
